import Mathlib

/-!
Verification of the Browser-Driven Message Dispatcher of `src/app.py`.

The Python program drives an already-running browser through a per-contact
UI sequence (`send_whatsapp_message`, lines 161-205), iterated by `job`
(lines 207-227) over a contact list, after fetching and grouping news
articles (`group_articles_by_source`, lines 72-83).

The embedding below models:
  * the keystroke composer (lines 194-199) as a pure event-list producer;
  * a single contact's dispatch sequence as a function from an abstract
    UI environment (which fixes the success/failure of each external
    interaction) to a result record (outcome, steps invoked, whether the
    driver connection was closed, emitted key events, log records);
  * the outer loop and the job early-return;
  * article grouping.
-/

/-- Error taxonomy of the spec, mapped onto the exceptions the Python code
can raise: attach failure of `webdriver.Chrome`, `TimeoutException` from
`WebDriverWait`, `NoSuchElementException` from `find_element`, and any
other interaction failure. -/
inductive StepError
  | attachError
  | timeoutError
  | notFoundError
  | unexpectedUIError
deriving DecidableEq

/-- The steps of one contact's dispatch sequence, in source order
(lines 164-199 of `send_whatsapp_message`).  `locateSearch` covers the
search-box wait plus the focusing click; `selectContact` covers the exact
title lookup plus the click. -/
inductive Step
  | attach
  | navigate
  | awaitReady
  | locateSearch
  | typeQuery
  | selectContact
  | locateInput
  | composeSend
deriving DecidableEq

/-- Low-level input events emitted into the message box: one `textInsert`
per `send_keys(line)` call, one `lineBreak` per `send_keys(SHIFT, ENTER)`
call, one `submit` for the final `send_keys(ENTER)`. -/
inductive KeyEvent
  | textInsert (line : String)
  | lineBreak
  | submit
deriving DecidableEq

/-- Per-contact dispatch outcome. -/
inductive Outcome
  | delivered
  | failed (e : StepError)
deriving DecidableEq

/-- The log records of `send_whatsapp_message`: the entry log (line 162),
the "WhatsApp Web loaded." log (line 172), the success log (line 201) and
the except-handler log carrying contact identity and cause (line 205). -/
inductive LogRecord
  | attempt (contact : String)
  | loaded
  | sent (contact : String)
  | errorLog (contact : String) (cause : StepError)
deriving DecidableEq

/-- Python `s.split(sep)` for a one-character separator, on character
lists; in particular the split of the empty list is `[[]]`, matching
Python's `"".split("\n") == [""]`. -/
def splitCharList (sep : Char) : List Char → List (List Char)
  | [] => [[]]
  | c :: cs =>
    let rest := splitCharList sep cs
    if c = sep then [] :: rest
    else
      match rest with
      | [] => [[c]]
      | r :: rs => (c :: r) :: rs

/-- Python `message.split("\n")` (line 195). -/
def pySplitNewline (s : String) : List String :=
  (splitCharList (Char.ofNat 10) s.data).map (fun cs => String.mk cs)

/-- The events of the composer loop body (lines 195-197): for every line,
one text insertion followed by one SHIFT+ENTER line break — including
after the final line. -/
def lineEvents : List String → List KeyEvent
  | [] => []
  | line :: rest => KeyEvent.textInsert line :: KeyEvent.lineBreak :: lineEvents rest

/-- The full event sequence of the composer (lines 194-199): the loop's
events followed by the single final ENTER submit. -/
def composeEvents (message : String) : List KeyEvent :=
  lineEvents (pySplitNewline message) ++ [KeyEvent.submit]

def isTextEvent : KeyEvent → Bool
  | KeyEvent.textInsert _ => true
  | _ => false

def isBreakEvent : KeyEvent → Bool
  | KeyEvent.lineBreak => true
  | _ => false

def isSubmitEvent : KeyEvent → Bool
  | KeyEvent.submit => true
  | _ => false


/-- The timeout budget of every `WebDriverWait(driver, 20)` call
(lines 171, 175, 190), abstracted to 20 poll ticks. -/
def waitTimeout : Nat := 20

/-- A `WebDriverWait(driver, timeout).until(...)` call: poll the
time-indexed condition at every tick up to the budget and return the
first tick at which it holds, `none` on timeout. -/
def waitUntil (present : Nat → Bool) (timeout : Nat) : Option Nat :=
  (List.range (timeout + 1)).find? present

/-- Line 185: `driver.find_element(By.XPATH, f'//span[@title="{name}"]')`
— a single immediate lookup returning the first rendered entry whose
title attribute equals `name` exactly, raising `NoSuchElementException`
(modelled as `none`) otherwise. -/
def findContactElement (titles : List String) (name : String) : Option String :=
  titles.find? (fun t => t == name)

/-- Abstract per-contact UI environment: fixes the behaviour of every
external interaction of one `send_whatsapp_message` call.  Time-indexed
fields give the state of the page at each poll tick; tick 0 is the
instant of an immediate (non-waiting) lookup. -/
structure ContactEnv where
  attachOk : Option StepError
  navigateOk : Option StepError
  bodyPresentAt : Nat → Bool
  searchBoxPresentAt : Nat → Bool
  searchClickOk : Option StepError
  typeOk : Option StepError
  titlesAt : Nat → List String
  contactClickOk : Option StepError
  inputClickableAt : Nat → Bool
  sendOk : Option StepError

/-- Per-contact sequence result: the outcome, the steps that were
entered (in order), whether `driver.quit()` ran, the complete composer
event sequence delivered to the message box (empty unless the sequence
completed), and the emitted log records. -/
structure SeqResult where
  outcome : Outcome
  trace : List Step
  closed : Bool
  events : List KeyEvent
  logs : List LogRecord
deriving DecidableEq

/-- The source order of the per-contact steps (lines 164-199). -/
def stepOrder : List Step :=
  [Step.attach, Step.navigate, Step.awaitReady, Step.locateSearch,
   Step.typeQuery, Step.selectContact, Step.locateInput, Step.composeSend]

/-- The step at position `k` of `stepOrder` (total, clamping at the
last step). -/
def stepAt : Nat → Step
  | 0 => Step.attach
  | 1 => Step.navigate
  | 2 => Step.awaitReady
  | 3 => Step.locateSearch
  | 4 => Step.typeQuery
  | 5 => Step.selectContact
  | 6 => Step.locateInput
  | _ => Step.composeSend

/-- Whether a given step raises in environment `env` for contact `name`,
and with which error: `awaitReady`/`locateSearch`/`locateInput` time out
when their condition never holds within `waitTimeout`; `locateSearch`
and `selectContact` may also fail at their click; `selectContact` raises
`notFoundError` when no exact title match is rendered at lookup time. -/
def stepFailsWith (env : ContactEnv) (name : String) : Step → Option StepError
  | Step.attach => env.attachOk
  | Step.navigate => env.navigateOk
  | Step.awaitReady =>
      if (waitUntil env.bodyPresentAt waitTimeout).isSome then none
      else some StepError.timeoutError
  | Step.locateSearch =>
      if (waitUntil env.searchBoxPresentAt waitTimeout).isSome then env.searchClickOk
      else some StepError.timeoutError
  | Step.typeQuery => env.typeOk
  | Step.selectContact =>
      match findContactElement (env.titlesAt 0) name with
      | some _ => env.contactClickOk
      | none => some StepError.notFoundError
  | Step.locateInput =>
      if (waitUntil env.inputClickableAt waitTimeout).isSome then none
      else some StepError.timeoutError
  | Step.composeSend => env.sendOk

/-- The result of a sequence that raises at the `k`-th entered step
(1-based): the except handler (lines 204-205) logs the error and returns;
`driver.quit()` (line 203) is skipped, no complete message is delivered.
The "loaded" log is present exactly when `awaitReady` succeeded. -/
def failAt (name : String) (k : Nat) (e : StepError) : SeqResult :=
  { outcome := Outcome.failed e
    trace := stepOrder.take k
    closed := false
    events := []
    logs := (if 4 ≤ k then [LogRecord.attempt name, LogRecord.loaded]
             else [LogRecord.attempt name]) ++ [LogRecord.errorLog name e] }

/-- The result of a fully successful sequence (lines 164-203): all eight
steps run, the composer events are delivered, the success log is written
and `driver.quit()` releases the connection. -/
def successResult (name message : String) : SeqResult :=
  { outcome := Outcome.delivered
    trace := stepOrder
    closed := true
    events := composeEvents message
    logs := [LogRecord.attempt name, LogRecord.loaded, LogRecord.sent name] }

/-- `send_whatsapp_message(contact_name, message)` (lines 161-205):
straight-line try block over the eight steps, first raise wins and is
caught at the function boundary. -/
def sendWhatsappMessage (env : ContactEnv) (contact_name message : String) : SeqResult :=
  match env.attachOk with
  | some e => failAt contact_name 1 e
  | none =>
  match env.navigateOk with
  | some e => failAt contact_name 2 e
  | none =>
  match waitUntil env.bodyPresentAt waitTimeout with
  | none => failAt contact_name 3 StepError.timeoutError
  | some _ =>
  match waitUntil env.searchBoxPresentAt waitTimeout with
  | none => failAt contact_name 4 StepError.timeoutError
  | some _ =>
  match env.searchClickOk with
  | some e => failAt contact_name 4 e
  | none =>
  match env.typeOk with
  | some e => failAt contact_name 5 e
  | none =>
  match findContactElement (env.titlesAt 0) contact_name with
  | none => failAt contact_name 6 StepError.notFoundError
  | some _ =>
  match env.contactClickOk with
  | some e => failAt contact_name 6 e
  | none =>
  match waitUntil env.inputClickableAt waitTimeout with
  | none => failAt contact_name 7 StepError.timeoutError
  | some _ =>
  match env.sendOk with
  | some e => failAt contact_name 8 e
  | none => successResult contact_name message

/-- The dispatcher loop (lines 225-226): `for contact in CONTACTS:
send_whatsapp_message(contact, formatted_message)`, with `i` the index of
the first remaining contact. -/
def runContacts (cEnv : Nat → ContactEnv) (i : Nat) (contacts : List String)
    (message : String) : List (String × SeqResult) :=
  match contacts with
  | [] => []
  | c :: rest =>
      (c, sendWhatsappMessage (cEnv i) c message) :: runContacts cEnv (i + 1) rest message

/-- A fully cooperative environment: every interaction succeeds and the
contact "Alice" is rendered. -/
def envAllOk : ContactEnv :=
  { attachOk := none
    navigateOk := none
    bodyPresentAt := fun _ => true
    searchBoxPresentAt := fun _ => true
    searchClickOk := none
    typeOk := none
    titlesAt := fun _ => ["Alice", "Alicia"]
    contactClickOk := none
    inputClickableAt := fun _ => true
    sendOk := none }

/-- An unreachable remote debugging endpoint: `webdriver.Chrome` raises
on every attach. -/
def envAttachFail : ContactEnv :=
  { envAllOk with attachOk := some StepError.attachError }

/-- An environment in which the searched contact is never rendered, but
a prefix-sharing near match ("Alice" for query "Ali") is. -/
def envNearMatch : ContactEnv :=
  { envAllOk with titlesAt := fun _ => ["Alice"] }

/-- An environment in which the contact entry "Bob" appears one poll
tick after the lookup instant — within the 20-tick budget, but too late
for an immediate non-retrying lookup. -/
def envLateTitles : ContactEnv :=
  { envAllOk with titlesAt := fun t => if 1 ≤ t then ["Bob"] else [] }

/-- An environment in which the message input box never becomes
clickable, so the sequence times out at `locateInput`. -/
def envInputTimeout : ContactEnv :=
  { envAllOk with inputClickableAt := fun _ => false }

/-- The logical UI targets the sequence resolves. -/
inductive LocateTarget
  | readyBody
  | searchBox
  | contactEntry
  | messageInput
deriving DecidableEq

/-- The wait budget the source gives each target's resolution: the page
body (line 171), the search box (lines 175-179) and the message input
(lines 190-192) go through `WebDriverWait(driver, 20)`, which retries
until the timeout; the contact entry (line 185) goes through a bare
`driver.find_element`, a single immediate lookup with no budget. -/
def locatorTimeout : LocateTarget → Option Nat
  | LocateTarget.contactEntry => none
  | _ => some waitTimeout

/-- A NewsAPI article as the grouping code reads it:
`article.get("source", {}).get("name", ...)` and `article.get("title", "")`
(lines 75-76), with `none` for a missing key. -/
structure Article where
  sourceName : Option String
  title : Option String
deriving DecidableEq

/-- Python `s.strip()`: remove leading and trailing whitespace. -/
def pyStrip (s : String) : String :=
  String.mk (((s.data.dropWhile Char.isWhitespace).reverse.dropWhile Char.isWhitespace).reverse)

/-- The headline the grouping derives from an article (line 76). -/
def headlineOf (a : Article) : String :=
  pyStrip (a.title.getD "")

/-- The source name the grouping derives from an article (line 75). -/
def sourceOf (a : Article) : String :=
  a.sourceName.getD "Unknown Source"

/-- Lines 79-82: ensure the source has an entry, then append the headline
only while the source's list is below the cap.  The grouped dict is an
insertion-ordered association list, as in Python 3.7+. -/
def addHeadline (maxPer : Nat) (source headline : String) :
    List (String × List String) → List (String × List String)
  | [] => [(source, if 0 < maxPer then [headline] else [])]
  | (s, hs) :: rest =>
      if s = source then
        (s, if hs.length < maxPer then hs ++ [headline] else hs) :: rest
      else
        (s, hs) :: addHeadline maxPer source headline rest

/-- The loop body of `group_articles_by_source` (lines 74-82): skip
articles whose stripped title is empty, otherwise record the headline
under its source. -/
def groupStep (maxPer : Nat) (grouped : List (String × List String)) (a : Article) :
    List (String × List String) :=
  if headlineOf a = "" then grouped
  else addHeadline maxPer (sourceOf a) (headlineOf a) grouped

/-- `group_articles_by_source(articles, max_per_source)` (lines 72-83). -/
def group_articles_by_source (articles : List Article) (maxPer : Nat) :
    List (String × List String) :=
  articles.foldl (groupStep maxPer) []

/-- `analyze_sentiment` thresholds (lines 88-94), over the compound
polarity score the external VADER analyzer returns. -/
def analyze_sentiment (compound : ℚ) : String :=
  if 5 / 100 ≤ compound then "Overall Positive"
  else if compound ≤ -(5 / 100) then "Overall Negative"
  else "Neutral"

/-- Line 216: `" ".join([" ".join(headlines) for headlines in grouped.values()])`. -/
def flattenHeadlines (grouped : List (String × List String)) : String :=
  String.intercalate " " (grouped.map (fun p => String.intercalate " " p.2))

/-- A headline bullet of the formatted message (lines 147-149). -/
def formatHeadline (h : String) : String :=
  if h.endsWith "." then "* " ++ h else "* " ++ (h ++ ".")

/-- `create_formatted_message_from_grouping` (lines 141-159). -/
def create_formatted_message_from_grouping (grouped : List (String × List String))
    (sentiment quote soccer_section : String) : String :=
  let l0 := ["Daily News Summary", ""]
  let l1 := grouped.foldl
    (fun acc p => acc ++ [p.1 ++ ":"] ++ p.2.map formatHeadline ++ [""]) l0
  let l2 := if soccer_section = "" then l1 else l1 ++ [soccer_section, ""]
  let l3 := l2 ++ ["Overall Sentiment: " ++ sentiment]
  let l4 := if quote = "" then l3 else l3 ++ ["Inspirational Quote: " ++ quote]
  String.intercalate "\n" (l4 ++ ["", "Have a great day!"])

/-- Environment of one `job()` run: the articles `fetch_news` returned
(`[]` on any fetch error, lines 59-70), the external sentiment analyzer,
the fetched quote, and the configuration plus per-contact UI behaviour. -/
structure JobEnv where
  articles : List Article
  polarity : String → ℚ
  quote : String
  maxPerSource : Nat
  contacts : List String
  contactEnv : Nat → ContactEnv

/-- Result of one `job()` run: the composed message, if composition was
reached, and the recorded per-contact results. -/
structure JobResult where
  composed : Option String
  results : List (String × SeqResult)

/-- `job()` (lines 207-227): fetch, return early when no articles,
group, score, compose, then dispatch to every contact. -/
def job (env : JobEnv) : JobResult :=
  if env.articles.isEmpty then { composed := none, results := [] }
  else
    let grouped := group_articles_by_source env.articles env.maxPerSource
    let sentiment := analyze_sentiment (env.polarity (flattenHeadlines grouped))
    let msg := create_formatted_message_from_grouping grouped sentiment env.quote ""
    { composed := some msg, results := runContacts env.contactEnv 0 env.contacts msg }

/-- The spec's §8 scenario: the first contact's environment renders
"Alice" and succeeds, the second renders only "Alice" so a query for
"Bob" finds no exact match. -/
def cEnvScenario : Nat → ContactEnv :=
  fun j => if j = 0 then envAllOk else envNearMatch

/-- A job environment in which `fetch_news` returned no articles. -/
def jobEnvEmpty : JobEnv :=
  { articles := []
    polarity := fun _ => 0
    quote := ""
    maxPerSource := 3
    contacts := ["Alice"]
    contactEnv := fun _ => envAllOk }

/-- Concrete articles for evaluation: a padded title, a missing title,
and a missing source name. -/
def sampleArticles : List Article :=
  [{ sourceName := some "SrcA", title := some " Hello " },
   { sourceName := some "SrcA", title := none },
   { sourceName := none, title := some "World" }]

/-- Invariant of the grouping loop state: every grouped source holds at
most `maxPer` headlines, all non-empty, appearing in the order of (and
drawn from) the processed headline list `titles`. -/
def GroupedInv (maxPer : Nat) (titles : List String)
    (grouped : List (String × List String)) : Prop :=
  ∀ p ∈ grouped, p.2.length ≤ maxPer ∧ (∀ h ∈ p.2, h ≠ "") ∧ p.2.Sublist titles

/-- Master characterization of one contact's sequence: either some step
is the first to raise — then the result is `failAt` that step — or no
step raises and the result is `successResult`. -/
theorem send_master (env : ContactEnv) (n m : String) :
    (∃ k e, k < 8 ∧ stepFailsWith env n (stepAt k) = some e ∧
       (∀ j, j < k → stepFailsWith env n (stepAt j) = none) ∧
       sendWhatsappMessage env n m = failAt n (k + 1) e)
  ∨ ((∀ j, j < 8 → stepFailsWith env n (stepAt j) = none) ∧
       sendWhatsappMessage env n m = successResult n m) := by
  cases hA : env.attachOk with
  | some e =>
    exact Or.inl ⟨0, e, by omega, by simp [stepFailsWith, stepAt, hA],
      fun j hj => absurd hj (by omega), by simp [sendWhatsappMessage, hA]⟩
  | none =>
  cases hN : env.navigateOk with
  | some e =>
    refine Or.inl ⟨1, e, by omega, by simp [stepFailsWith, stepAt, hN], ?_,
      by simp [sendWhatsappMessage, hA, hN]⟩
    intro j hj
    interval_cases j
    simp [stepFailsWith, stepAt, hA]
  | none =>
  cases hB : waitUntil env.bodyPresentAt waitTimeout with
  | none =>
    refine Or.inl ⟨2, StepError.timeoutError, by omega,
      by simp [stepFailsWith, stepAt, hB], ?_,
      by simp [sendWhatsappMessage, hA, hN, hB]⟩
    intro j hj
    interval_cases j <;> simp [stepFailsWith, stepAt, hA, hN]
  | some tB =>
  cases hS : waitUntil env.searchBoxPresentAt waitTimeout with
  | none =>
    refine Or.inl ⟨3, StepError.timeoutError, by omega,
      by simp [stepFailsWith, stepAt, hS], ?_,
      by simp [sendWhatsappMessage, hA, hN, hB, hS]⟩
    intro j hj
    interval_cases j <;> simp [stepFailsWith, stepAt, hA, hN, hB]
  | some tS =>
  cases hC : env.searchClickOk with
  | some e =>
    refine Or.inl ⟨3, e, by omega, by simp [stepFailsWith, stepAt, hS, hC], ?_,
      by simp [sendWhatsappMessage, hA, hN, hB, hS, hC]⟩
    intro j hj
    interval_cases j <;> simp [stepFailsWith, stepAt, hA, hN, hB]
  | none =>
  cases hT : env.typeOk with
  | some e =>
    refine Or.inl ⟨4, e, by omega, by simp [stepFailsWith, stepAt, hT], ?_,
      by simp [sendWhatsappMessage, hA, hN, hB, hS, hC, hT]⟩
    intro j hj
    interval_cases j <;> simp [stepFailsWith, stepAt, hA, hN, hB, hS, hC]
  | none =>
  cases hF : findContactElement (env.titlesAt 0) n with
  | none =>
    refine Or.inl ⟨5, StepError.notFoundError, by omega,
      by simp [stepFailsWith, stepAt, hF], ?_,
      by simp [sendWhatsappMessage, hA, hN, hB, hS, hC, hT, hF]⟩
    intro j hj
    interval_cases j <;> simp [stepFailsWith, stepAt, hA, hN, hB, hS, hC, hT]
  | some el =>
  cases hCC : env.contactClickOk with
  | some e =>
    refine Or.inl ⟨5, e, by omega, by simp [stepFailsWith, stepAt, hF, hCC], ?_,
      by simp [sendWhatsappMessage, hA, hN, hB, hS, hC, hT, hF, hCC]⟩
    intro j hj
    interval_cases j <;> simp [stepFailsWith, stepAt, hA, hN, hB, hS, hC, hT]
  | none =>
  cases hI : waitUntil env.inputClickableAt waitTimeout with
  | none =>
    refine Or.inl ⟨6, StepError.timeoutError, by omega,
      by simp [stepFailsWith, stepAt, hI], ?_,
      by simp [sendWhatsappMessage, hA, hN, hB, hS, hC, hT, hF, hCC, hI]⟩
    intro j hj
    interval_cases j <;> simp [stepFailsWith, stepAt, hA, hN, hB, hS, hC, hT, hF, hCC]
  | some tI =>
  cases hSend : env.sendOk with
  | some e =>
    refine Or.inl ⟨7, e, by omega, by simp [stepFailsWith, stepAt, hSend], ?_,
      by simp [sendWhatsappMessage, hA, hN, hB, hS, hC, hT, hF, hCC, hI, hSend]⟩
    intro j hj
    interval_cases j <;>
      simp [stepFailsWith, stepAt, hA, hN, hB, hS, hC, hT, hF, hCC, hI]
  | none =>
    refine Or.inr ⟨?_, by simp [sendWhatsappMessage, hA, hN, hB, hS, hC, hT, hF, hCC, hI, hSend]⟩
    intro j hj
    interval_cases j <;>
      simp [stepFailsWith, stepAt, hA, hN, hB, hS, hC, hT, hF, hCC, hI, hSend]

theorem lineEvents_counts (ls : List String) :
    (lineEvents ls).countP isTextEvent = ls.length ∧
    (lineEvents ls).countP isBreakEvent = ls.length ∧
    (lineEvents ls).countP isSubmitEvent = 0 := by
  induction ls with
  | nil => exact ⟨rfl, rfl, rfl⟩
  | cons l rest ih =>
    obtain ⟨h1, h2, h3⟩ := ih
    refine ⟨?_, ?_, ?_⟩ <;>
      simp [lineEvents, List.countP_cons, isTextEvent, isBreakEvent, isSubmitEvent,
        h1, h2, h3]

/-- C1 (corrected): on the three-line message `"A\nB\nC"` the composer
emits 3 line-break events, not the 2 the claim requires (the loop at
lines 195-197 emits SHIFT+ENTER after every line, including the last). -/
theorem c1_counterexample :
    (pySplitNewline "A\nB\nC").length = 3 ∧
    (composeEvents "A\nB\nC").countP isBreakEvent = 3 ∧
    ¬((composeEvents "A\nB\nC").countP isBreakEvent
        = (pySplitNewline "A\nB\nC").length - 1) := by decide

/-- C1 (amended): for a message of N lines the composer emits exactly N
text-insertion events and exactly N line-break events (one after every
line, including the last) before exactly one submit event, which is the
final event — so the message is still delivered as one contiguous unit. -/
theorem c1_composer_event_counts (m : String) :
    ∃ pre, composeEvents m = pre ++ [KeyEvent.submit] ∧
      pre.countP isSubmitEvent = 0 ∧
      pre.countP isTextEvent = (pySplitNewline m).length ∧
      pre.countP isBreakEvent = (pySplitNewline m).length := by
  obtain ⟨h1, h2, h3⟩ := lineEvents_counts (pySplitNewline m)
  exact ⟨lineEvents (pySplitNewline m), rfl, h3, h1, h2⟩

theorem send_errorLog (env : ContactEnv) (n m : String) (e : StepError)
    (h : (sendWhatsappMessage env n m).outcome = Outcome.failed e) :
    LogRecord.errorLog n e ∈ (sendWhatsappMessage env n m).logs := by
  rcases send_master env n m with ⟨k, e', _, _, _, hres⟩ | ⟨_, hres⟩ <;> rw [hres] at h ⊢
  · simp only [failAt] at h
    have he : e' = e := by simpa using h
    subst he
    simp [failAt]
  · simp [successResult] at h

/-- C2: the dispatcher loop attempts every contact exactly once in list
order — the result list pairs each input contact, positionally, with its
sequence result — and any failed sequence has its error caught and
logged with the contact's identity and cause, never aborting the loop. -/
theorem c2_attempts_every_contact (cEnv : Nat → ContactEnv) (i : Nat)
    (contacts : List String) (m : String) :
    (runContacts cEnv i contacts m).map Prod.fst = contacts ∧
    (runContacts cEnv i contacts m).length = contacts.length ∧
    ∀ r ∈ runContacts cEnv i contacts m, ∀ e, r.2.outcome = Outcome.failed e →
      LogRecord.errorLog r.1 e ∈ r.2.logs := by
  induction contacts generalizing i with
  | nil =>
    refine ⟨rfl, rfl, ?_⟩
    intro r hr
    simp [runContacts] at hr
  | cons c rest ih =>
    obtain ⟨h1, h2, h3⟩ := ih (i + 1)
    refine ⟨by simp [runContacts, h1], by simp [runContacts, h2], ?_⟩
    intro r hr e he
    have hr' : r = (c, sendWhatsappMessage (cEnv i) c m) ∨
        r ∈ runContacts cEnv (i + 1) rest m := by
      simpa [runContacts] using hr
    rcases hr' with hc | hc
    · subst hc
      exact send_errorLog _ _ _ _ he
    · exact h3 r hc e he

/-- C2 witness: in the spec's §8 scenario the failed "Bob" sequence is
logged with identity and cause. -/
theorem c2_witness :
    LogRecord.errorLog "Bob" StepError.notFoundError ∈
      (sendWhatsappMessage (cEnvScenario 1) "Bob" "Hello\nWorld").logs :=
  (c2_attempts_every_contact cEnvScenario 0 ["Alice", "Bob"] "Hello\nWorld").2.2
    ("Bob", sendWhatsappMessage (cEnvScenario 1) "Bob" "Hello\nWorld")
    (by decide) StepError.notFoundError (by decide)

/-- C3 (corrected): with an unreachable debugging endpoint — every
attach raises — the run does not abort before the contacts: both
contacts are attempted and two `Failed` outcomes are recorded, not
zero. -/
theorem c3_counterexample :
    (runContacts (fun _ => envAttachFail) 0 ["Alice", "Bob"] "Hi").length = 2 ∧
    ∀ r ∈ runContacts (fun _ => envAttachFail) 0 ["Alice", "Bob"] "Hi",
      r.2.outcome = Outcome.failed StepError.attachError := by decide

/-- C3 (amended): the attach is performed per contact, inside the
per-contact try block; when every attach raises, every contact is still
attempted, each sequence records a `Failed` outcome, and only the attach
step runs for each contact. -/
theorem c3_attach_is_per_contact (cEnv : Nat → ContactEnv) (i : Nat)
    (contacts : List String) (m : String) (e : StepError)
    (h : ∀ j, (cEnv j).attachOk = some e) :
    (runContacts cEnv i contacts m).length = contacts.length ∧
    ∀ r ∈ runContacts cEnv i contacts m,
      r.2.outcome = Outcome.failed e ∧ r.2.trace = [Step.attach] := by
  induction contacts generalizing i with
  | nil =>
    refine ⟨rfl, ?_⟩
    intro r hr
    simp [runContacts] at hr
  | cons c rest ih =>
    obtain ⟨h1, h2⟩ := ih (i + 1)
    refine ⟨by simp [runContacts, h1], ?_⟩
    intro r hr
    have hr' : r = (c, sendWhatsappMessage (cEnv i) c m) ∨
        r ∈ runContacts cEnv (i + 1) rest m := by
      simpa [runContacts] using hr
    rcases hr' with hc | hc
    · subst hc
      have hs : sendWhatsappMessage (cEnv i) c m = failAt c 1 e := by
        simp [sendWhatsappMessage, h i]
      simp only [hs]
      exact ⟨rfl, rfl⟩
    · exact h2 r hc

theorem c3_amended_witness :
    (runContacts (fun _ => envAttachFail) 0 ["Ann"] "Hi").length = 1 ∧
    ∀ r ∈ runContacts (fun _ => envAttachFail) 0 ["Ann"] "Hi",
      r.2.outcome = Outcome.failed StepError.attachError ∧ r.2.trace = [Step.attach] :=
  c3_attach_is_per_contact (fun _ => envAttachFail) 0 ["Ann"] "Hi"
    StepError.attachError (fun _ => rfl)

/-- C4: the steps of one contact's sequence run strictly in source
order, each at most once (the invoked-step trace is an initial segment
of `stepOrder`, hence without repetition); a failure ends the sequence
at the first raising step: that step is the last one invoked, every
earlier step succeeded, and no later step is entered. -/
theorem c4_step_order (env : ContactEnv) (n m : String) :
    (∃ k, k ≤ 8 ∧ (sendWhatsappMessage env n m).trace = stepOrder.take k) ∧
    (sendWhatsappMessage env n m).trace.Nodup ∧
    (∀ e, (sendWhatsappMessage env n m).outcome = Outcome.failed e →
      ∃ k, k < 8 ∧ (sendWhatsappMessage env n m).trace = stepOrder.take (k + 1) ∧
        stepFailsWith env n (stepAt k) = some e ∧
        ∀ j, j < k → stepFailsWith env n (stepAt j) = none) := by
  rcases send_master env n m with ⟨k, e, hk, hfail, hnone, hres⟩ | ⟨hall, hres⟩
  · refine ⟨⟨k + 1, by omega, by rw [hres]; rfl⟩, ?_, ?_⟩
    · rw [hres]
      exact List.Nodup.sublist (List.take_sublist _ _) (by decide)
    · intro e' he'
      rw [hres] at he'
      simp only [failAt] at he'
      have he2 : e = e' := by simpa using he'
      subst he2
      exact ⟨k, hk, by rw [hres]; rfl, hfail, hnone⟩
  · refine ⟨⟨8, le_refl 8, by rw [hres]; rfl⟩, ?_, ?_⟩
    · rw [hres]
      exact (by decide : stepOrder.Nodup)
    · intro e he
      rw [hres] at he
      simp [successResult] at he

theorem c4_witness :
    ∃ k, k < 8 ∧
      (sendWhatsappMessage envNearMatch "Ali" "Hi").trace = stepOrder.take (k + 1) ∧
      stepFailsWith envNearMatch "Ali" (stepAt k) = some StepError.notFoundError ∧
      ∀ j, j < k → stepFailsWith envNearMatch "Ali" (stepAt j) = none :=
  (c4_step_order envNearMatch "Ali" "Hi").2.2 StepError.notFoundError (by decide)

/-- C5 (corrected): for the empty-string message the composer still runs
— Python's `"".split("\n")` is `[""]`, so one empty text-insertion call,
one line break and one submit are emitted — and the dispatcher does not
suppress the send: with a cooperative UI the sequence completes and the
submit event is delivered. -/
theorem c5_counterexample :
    composeEvents "" = [KeyEvent.textInsert "", KeyEvent.lineBreak, KeyEvent.submit] ∧
    (composeEvents "").countP isSubmitEvent = 1 ∧
    (sendWhatsappMessage envAllOk "Alice" "").outcome = Outcome.delivered ∧
    (sendWhatsappMessage envAllOk "Alice" "").events = composeEvents "" := by decide

/-- C5 (amended): no caller-side guard exists — whenever every step of
the UI sequence succeeds, the empty message is sent: the sequence
completes with `Delivered` and the events emitted into the input are one
empty text insertion, one line break, and one submit. -/
theorem c5_empty_message_not_suppressed (env : ContactEnv) (n : String)
    (h : ∀ j, j < 8 → stepFailsWith env n (stepAt j) = none) :
    (sendWhatsappMessage env n "").outcome = Outcome.delivered ∧
    (sendWhatsappMessage env n "").events
      = [KeyEvent.textInsert "", KeyEvent.lineBreak, KeyEvent.submit] := by
  rcases send_master env n "" with ⟨k, e, hk, hfail, _, _⟩ | ⟨_, hres⟩
  · rw [h k (by omega)] at hfail
    exact absurd hfail (by simp)
  · rw [hres]
    refine ⟨rfl, ?_⟩
    show composeEvents "" = _
    decide

theorem c5_amended_witness :
    (sendWhatsappMessage envAllOk "Alice" "").outcome = Outcome.delivered ∧
    (sendWhatsappMessage envAllOk "Alice" "").events
      = [KeyEvent.textInsert "", KeyEvent.lineBreak, KeyEvent.submit] :=
  c5_empty_message_not_suppressed envAllOk "Alice" (by decide)

/-- C6 (corrected): a sequence that fails mid-way (here: the message
input never becomes clickable) ends without `driver.quit()` having run —
the automation connection is not released on the failure exit path. -/
theorem c6_counterexample :
    (sendWhatsappMessage envInputTimeout "Alice" "Hi").outcome
      = Outcome.failed StepError.timeoutError ∧
    (sendWhatsappMessage envInputTimeout "Alice" "Hi").closed = false := by decide

/-- C6 (amended): the automation connection is released exactly on the
successful exit path — `driver.quit()` (line 203) sits at the end of the
try block, so the connection is closed if and only if the whole sequence
delivered; every failure path skips it. -/
theorem c6_closed_iff_delivered (env : ContactEnv) (n m : String) :
    (sendWhatsappMessage env n m).closed = true ↔
    (sendWhatsappMessage env n m).outcome = Outcome.delivered := by
  rcases send_master env n m with ⟨k, e, _, _, _, hres⟩ | ⟨_, hres⟩ <;> rw [hres]
  · simp [failAt]
  · simp [successResult]

theorem c6_witness :
    (sendWhatsappMessage envAllOk "Alice" "Hi").closed = true :=
  (c6_closed_iff_delivered envAllOk "Alice" "Hi").mpr (by decide)

theorem send_notFound_immediate (env : ContactEnv) (name m : String)
    (hok : ∀ j, j < 5 → stepFailsWith env name (stepAt j) = none)
    (hnone : findContactElement (env.titlesAt 0) name = none) :
    (sendWhatsappMessage env name m).outcome = Outcome.failed StepError.notFoundError := by
  have h5 : stepFailsWith env name (stepAt 5) = some StepError.notFoundError := by
    simp [stepFailsWith, stepAt, hnone]
  rcases send_master env name m with ⟨k, e, hk, hfail, hprev, hres⟩ | ⟨hall, _⟩
  · have hk5 : ¬ k < 5 := by
      intro hlt
      rw [hok k hlt] at hfail
      exact absurd hfail (by simp)
    have hk5' : ¬ 5 < k := by
      intro hlt
      rw [hprev 5 hlt] at h5
      exact absurd h5 (by simp)
    have hke : k = 5 := by omega
    subst hke
    have he : e = StepError.notFoundError := Option.some.inj (hfail.symm.trans h5)
    subst he
    rw [hres]
    rfl
  · rw [hall 5 (by omega)] at h5
    exact absurd h5 (by simp)

/-- C7: contact selection is exact-match — the lookup of line 185 only
ever returns an entry whose title equals the queried display name, so a
near match (e.g. "Alice" rendered while "Ali" is queried) is never
silently selected; when no exact match is rendered, the step raises and
the sequence fails with `NotFoundError`. -/
theorem c7_exact_match (titles : List String) (name t : String)
    (env : ContactEnv) (m : String) :
    (findContactElement titles name = some t → t = name) ∧
    ((∀ j, j < 5 → stepFailsWith env name (stepAt j) = none) →
      findContactElement (env.titlesAt 0) name = none →
      (sendWhatsappMessage env name m).outcome = Outcome.failed StepError.notFoundError) := by
  constructor
  · intro h
    unfold findContactElement at h
    have hp := List.find?_some h
    exact eq_of_beq hp
  · exact send_notFound_immediate env name m

theorem c7_witness :
    (sendWhatsappMessage envNearMatch "Ali" "Hi").outcome
      = Outcome.failed StepError.notFoundError :=
  (c7_exact_match ["Alice"] "Ali" "Ali" envNearMatch "Hi").2 (by decide) (by decide)

/-- C8 (corrected): the contact entry "Bob" is rendered from poll tick 1
on — within the 20-tick budget, as the retrying locator would observe —
yet the sequence fails with `NotFoundError`, because line 185 performs a
single immediate lookup instead of retrying under data timeout. -/
theorem c8_counterexample :
    (sendWhatsappMessage envLateTitles "Bob" "Hi").outcome
      = Outcome.failed StepError.notFoundError ∧
    (∃ t, t ≤ waitTimeout ∧ (findContactElement (envLateTitles.titlesAt t) "Bob").isSome) ∧
    (waitUntil (fun t => (findContactElement (envLateTitles.titlesAt t) "Bob").isSome)
      waitTimeout).isSome := by
  refine ⟨by decide, ⟨1, by decide, by decide⟩, by decide⟩

/-- C8 (amended): the page-body, search-box and message-input
resolutions retry under the 20-tick budget — `waitUntil` succeeds
exactly when the target is present at some tick within the budget — but
the contact entry has no budget: it is resolved by one immediate lookup,
so the sequence fails with `NotFoundError` whenever no exact match is
rendered at the lookup instant, even when one appears within the
budget. -/
theorem c8_locator_strategies (p : Nat → Bool) (env : ContactEnv) (name m : String) :
    ((waitUntil p waitTimeout).isSome ↔ ∃ t, t ≤ waitTimeout ∧ p t = true) ∧
    locatorTimeout LocateTarget.readyBody = some waitTimeout ∧
    locatorTimeout LocateTarget.searchBox = some waitTimeout ∧
    locatorTimeout LocateTarget.messageInput = some waitTimeout ∧
    locatorTimeout LocateTarget.contactEntry = none ∧
    ((∀ j, j < 5 → stepFailsWith env name (stepAt j) = none) →
      findContactElement (env.titlesAt 0) name = none →
      (∃ t, t ≤ waitTimeout ∧ (findContactElement (env.titlesAt t) name).isSome) →
      (sendWhatsappMessage env name m).outcome = Outcome.failed StepError.notFoundError) := by
  refine ⟨?_, rfl, rfl, rfl, rfl, ?_⟩
  · unfold waitUntil
    rw [List.find?_isSome]
    constructor
    · rintro ⟨t, ht, hp⟩
      have htt := List.mem_range.mp ht
      exact ⟨t, by omega, hp⟩
    · rintro ⟨t, ht, hp⟩
      exact ⟨t, List.mem_range.mpr (by omega), hp⟩
  · intro hok hnone _
    exact send_notFound_immediate env name m hok hnone

theorem c8_witness :
    (sendWhatsappMessage envLateTitles "Bob" "Hi").outcome
      = Outcome.failed StepError.notFoundError :=
  (c8_locator_strategies (fun _ => true) envLateTitles "Bob" "Hi").2.2.2.2.2
    (by decide) (by decide) ⟨1, by decide, by decide⟩

/-- C9: when `fetch_news` yields no articles, `job` returns at line 212:
no message is composed and zero per-contact sequences are started. -/
theorem c9_empty_articles_early_return (env : JobEnv) (h : env.articles = []) :
    (job env).composed = none ∧ (job env).results = [] := by
  simp [job, h]

theorem c9_witness :
    (job jobEnvEmpty).composed = none ∧ (job jobEnvEmpty).results = [] :=
  c9_empty_articles_early_return jobEnvEmpty rfl

theorem GroupedInv.extend (maxPer : Nat) (titles ts : List String)
    (grouped : List (String × List String))
    (h : GroupedInv maxPer titles grouped) :
    GroupedInv maxPer (titles ++ ts) grouped := by
  intro p hp
  obtain ⟨h1, h2, h3⟩ := h p hp
  exact ⟨h1, h2, h3.trans (List.sublist_append_left titles ts)⟩

theorem addHeadline_inv (maxPer : Nat) (source headline : String)
    (titles : List String) (grouped : List (String × List String))
    (hne : headline ≠ "") :
    GroupedInv maxPer titles grouped →
    GroupedInv maxPer (titles ++ [headline])
      (addHeadline maxPer source headline grouped) := by
  induction grouped with
  | nil =>
    intro _ p hp
    simp only [addHeadline, List.mem_singleton] at hp
    subst hp
    by_cases hm : 0 < maxPer
    · simp only [if_pos hm]
      refine ⟨hm, ?_, List.sublist_append_right titles [headline]⟩
      intro x hx
      rw [List.mem_singleton] at hx
      subst hx
      exact hne
    · simp only [if_neg hm]
      exact ⟨by simp, by simp, List.nil_sublist _⟩
  | cons q rest ih =>
    intro hinv p hp
    obtain ⟨s, hs⟩ := q
    have hq := hinv (s, hs) (List.mem_cons_self _ _)
    have hrest : GroupedInv maxPer titles rest :=
      fun r hr => hinv r (List.mem_cons_of_mem _ hr)
    simp only [addHeadline] at hp
    by_cases hss : s = source
    · rw [if_pos hss] at hp
      rcases List.mem_cons.mp hp with hc | hc
      · subst hc
        by_cases hlen : hs.length < maxPer
        · simp only [if_pos hlen]
          refine ⟨by simp; omega, ?_, ?_⟩
          · intro x hx
            rcases List.mem_append.mp hx with h1 | h1
            · exact hq.2.1 x h1
            · rw [List.mem_singleton] at h1
              subst h1
              exact hne
          · exact List.Sublist.append hq.2.2 (List.Sublist.refl [headline])
        · simp only [if_neg hlen]
          exact ⟨hq.1, hq.2.1, hq.2.2.trans (List.sublist_append_left titles [headline])⟩
      · obtain ⟨h1, h2, h3⟩ := hrest p hc
        exact ⟨h1, h2, h3.trans (List.sublist_append_left titles [headline])⟩
    · rw [if_neg hss] at hp
      rcases List.mem_cons.mp hp with hc | hc
      · subst hc
        exact ⟨hq.1, hq.2.1, hq.2.2.trans (List.sublist_append_left titles [headline])⟩
      · exact ih hrest p hc

theorem groupStep_inv (maxPer : Nat) (a : Article) (titles : List String)
    (grouped : List (String × List String))
    (h : GroupedInv maxPer titles grouped) :
    GroupedInv maxPer (titles ++ [headlineOf a]) (groupStep maxPer grouped a) := by
  unfold groupStep
  by_cases hne : headlineOf a = ""
  · rw [if_pos hne]
    exact GroupedInv.extend maxPer titles [headlineOf a] grouped h
  · rw [if_neg hne]
    exact addHeadline_inv maxPer (sourceOf a) (headlineOf a) titles grouped hne h

theorem foldl_groupStep_inv (maxPer : Nat) (articles : List Article) :
    ∀ titles grouped, GroupedInv maxPer titles grouped →
      GroupedInv maxPer (titles ++ articles.map headlineOf)
        (articles.foldl (groupStep maxPer) grouped) := by
  induction articles with
  | nil =>
    intro titles grouped h
    simpa using h
  | cons a rest ih =>
    intro titles grouped h
    have h2 := ih (titles ++ [headlineOf a]) (groupStep maxPer grouped a)
      (groupStep_inv maxPer a titles grouped h)
    simpa [List.append_assoc] using h2

/-- C10: every source in the grouped result holds at most
`max_per_source` headlines; every grouped headline is non-empty (empty or
missing titles are skipped) and is the stripped title of some input
article; and the headlines of a source appear in input-list order (they
form a sublist of the input's stripped-title sequence). -/
theorem c10_grouping (articles : List Article) (maxPer : Nat) :
    ∀ p ∈ group_articles_by_source articles maxPer,
      p.2.length ≤ maxPer ∧ (∀ h ∈ p.2, h ≠ "") ∧
      p.2.Sublist (articles.map headlineOf) ∧
      ∀ h ∈ p.2, ∃ a ∈ articles, headlineOf a = h := by
  intro p hp
  have hbase : GroupedInv maxPer [] [] := by
    intro r hr
    simp at hr
  have h := foldl_groupStep_inv maxPer articles [] [] hbase p
    (by simpa [group_articles_by_source] using hp)
  refine ⟨h.1, h.2.1, by simpa using h.2.2, ?_⟩
  intro x hx
  have hmem : x ∈ articles.map headlineOf := by
    have hsub : p.2.Sublist (articles.map headlineOf) := by simpa using h.2.2
    exact hsub.subset hx
  obtain ⟨a, ha, hax⟩ := List.mem_map.mp hmem
  exact ⟨a, ha, hax⟩

theorem c10_witness :
    ("SrcA", ["Hello"]).2.length ≤ 3 ∧
    (∀ h ∈ ("SrcA", ["Hello"]).2, h ≠ "") ∧
    List.Sublist ("SrcA", ["Hello"]).2 (sampleArticles.map headlineOf) ∧
    (∀ h ∈ ("SrcA", ["Hello"]).2, ∃ a ∈ sampleArticles, headlineOf a = h) :=
  c10_grouping sampleArticles 3 ("SrcA", ["Hello"]) (by decide)
